import Mathlib

/-!
Verification development for the Astrovault yield-opportunity scanner
(`defi_scanner.py` plus its caller in `app.py`).

The Python code is shallowly embedded:
  * JSON values returned by the feeds become the inductive type `JVal`
    (numbers are embedded as rationals; Python `bool` is a subtype of
    `int`, so boolean JSON values count as numeric where the code uses
    `isinstance(x, (int, float))`).
  * Python dictionaries become association lists; `dict.get` with the
    last-occurrence-wins key semantics of `json.loads` is `jget`.
  * Code that can raise a Python exception is embedded in `Except String`;
    the error strings only describe the exception class, their exact text
    is irrelevant.
  * `f"{x:.2f}%"` and `f"${x:,.0f}"` display formatting is embedded as
    actual character-list rendering (`fmt2Chars`, `fmtMoneyChars`), and the
    `float(...)` parsing used by `apy_value` / `tvl_value` is the executable
    parser `parsePyFloat?`.  Formatting of a rational rounds exactly;
    IEEE-754 double rounding of the Python floats is not modelled (ties and
    17-digit artifacts differ, which no claim depends on).
  * `sorted(xs, key=k, reverse=True)` is stable in Python; it is embedded
    as `pySortDesc k`, an insertion sort that is stable in the same sense.
-/

/-- A JSON value as produced by `requests.Response.json()`.  Objects keep
their textual field order; numbers are rationals. -/
inductive JVal where
  | null : JVal
  | bool : Bool → JVal
  | num : ℚ → JVal
  | str : String → JVal
  | arr : List JVal → JVal
  | obj : List (String × JVal) → JVal

/-- Python dictionary lookup for a JSON-decoded object: with duplicate keys
`json.loads` keeps the last occurrence. -/
def jget (fs : List (String × JVal)) (k : String) : Option JVal :=
  fs.reverse.lookup k

/-- Python `"k" in d` for a JSON-decoded dictionary. -/
def hasKey (fs : List (String × JVal)) (k : String) : Bool :=
  (jget fs k).isSome

/-- Python truthiness of a JSON-decoded value. -/
def JVal.isTruthy : JVal → Bool
  | .null => false
  | .bool b => b
  | .num q => q ≠ 0
  | .str s => s ≠ ""
  | .arr l => !l.isEmpty
  | .obj fs => !fs.isEmpty

/-- Python `v or d` restricted to JSON-decoded values. -/
def pyOr (v d : JVal) : JVal :=
  if v.isTruthy then v else d

/-- Is the value accepted by `isinstance(x, (int, float))`?  Python `bool`
is a subclass of `int`, so JSON booleans pass the check. -/
def JVal.isPyNum : JVal → Bool
  | .num _ => true
  | .bool _ => true
  | _ => false

/-- Numeric value of a value accepted by `isPyNum` (`float(True) = 1.0`). -/
def JVal.numVal : JVal → ℚ
  | .num q => q
  | .bool b => if b then 1 else 0
  | _ => 0

/-- Decimal digit character. -/
def digitChar (d : ℕ) : Char :=
  if d = 0 then '0' else if d = 1 then '1' else if d = 2 then '2'
  else if d = 3 then '3' else if d = 4 then '4' else if d = 5 then '5'
  else if d = 6 then '6' else if d = 7 then '7' else if d = 8 then '8'
  else if d = 9 then '9' else '*'

/-- Numeric value of a decimal digit character. -/
def digitVal (c : Char) : ℕ := c.toNat - 48

/-- Decimal digits, fuel-based so that the kernel can evaluate it; the
fuel is always sufficient when called through `natDigs`. -/
def natDigsAux : ℕ → ℕ → List Char
  | 0, _ => []
  | fuel + 1, n =>
    if n < 10 then [digitChar n]
    else natDigsAux fuel (n / 10) ++ [digitChar (n % 10)]

/-- Decimal digits of a natural number, most significant first
(Python `"%d" % n`). -/
def natDigs (n : ℕ) : List Char := natDigsAux (n + 1) n

/-- Parse a list of decimal digit characters as a natural number. -/
def parseNatChars (l : List Char) : ℕ :=
  l.foldl (fun a c => 10 * a + digitVal c) 0

/-- Two-digit zero-padded rendering of `k < 100` (the fractional part of a
`"%.2f"` format). -/
def pad2 (k : ℕ) : List Char :=
  [digitChar (k / 10), digitChar (k % 10)]

/-- Rounding to the nearest integer, halves away from zero upward:
`⌊q + 1/2⌋`.  This equals Mathlib `round` (theorem `round_eq`) and is
kernel-reducible. -/
def roundQ (q : ℚ) : ℤ := ⌊q + 1 / 2⌋

/-- The integer that `"%.2f"` formatting of `q` displays, times 100:
`q` scaled by 100 and rounded to the nearest integer. -/
def round2Int (q : ℚ) : ℤ := roundQ (q * 100)

/-- The rational value displayed by `"%.2f"` formatting of `q`. -/
def round2 (q : ℚ) : ℚ := (round2Int q : ℚ) / 100

/-- The rational value displayed by `"%,.0f"` formatting of `q`. -/
def round0 (q : ℚ) : ℚ := (roundQ q : ℤ)

/-- Characters of Python `f"{q:.2f}"`. -/
def fmt2Chars (q : ℚ) : List Char :=
  let m := round2Int q
  (if m < 0 then ['-'] else []) ++ natDigs (m.natAbs / 100) ++ '.' :: pad2 (m.natAbs % 100)

/-- Fuel-based worker for the thousands-separator grouping; the fuel is
always sufficient when called through `group3Rev`. -/
def group3RevAux : ℕ → List Char → List Char
  | 0, ds => ds
  | fuel + 1, ds =>
    if ds.length ≤ 3 then ds
    else ds.take 3 ++ ',' :: group3RevAux fuel (ds.drop 3)

/-- Insert thousands separators into a reversed digit list: groups of three
starting from the least significant digit. -/
def group3Rev (ds : List Char) : List Char := group3RevAux ds.length ds

/-- Insert thousands separators into a digit list (most significant first). -/
def group3 (ds : List Char) : List Char :=
  (group3Rev ds.reverse).reverse

/-- Characters of Python `f"${q:,.0f}"`. -/
def fmtMoneyChars (q : ℚ) : List Char :=
  let m := roundQ q
  '$' :: (if m < 0 then ['-'] else []) ++ group3 (natDigs m.natAbs)

/-- Python `str.strip()` on a character list. -/
def pyStrip (cs : List Char) : List Char :=
  ((cs.dropWhile Char.isWhitespace).reverse.dropWhile Char.isWhitespace).reverse

/-- Value of an unsigned decimal literal with integer part `ip` and
fractional part `fp` (both digit lists). -/
def valOf (ip fp : List Char) : ℚ :=
  (parseNatChars ip : ℚ) + (parseNatChars fp : ℚ) / 10 ^ fp.length

/-- Parse the digits of a float exponent (must be nonempty and all digits). -/
def parseExpNat? (cs : List Char) : Option ℕ :=
  if !cs.isEmpty && cs.all Char.isDigit then some (parseNatChars cs) else none

/-- Parse a float exponent with optional sign. -/
def parseExpInt? (cs : List Char) : Option ℤ :=
  match cs with
  | [] => none
  | c :: r =>
    if c = '-' then (parseExpNat? r).map (fun n => -(n : ℤ))
    else if c = '+' then (parseExpNat? r).map (fun n => (n : ℤ))
    else (parseExpNat? cs).map (fun n => (n : ℤ))

/-- Parse an unsigned Python float literal: digits, an optional fractional
part, and an optional exponent.  (`float()` also accepts `inf`, `nan` and
underscore separators; these never occur in the
formatted strings the program itself parses back and are not modelled.) -/
def parseUnsigned? (cs : List Char) : Option ℚ :=
  let ip := cs.takeWhile Char.isDigit
  let r1 := cs.dropWhile Char.isDigit
  match r1 with
  | [] => if ip.isEmpty then none else some (valOf ip [])
  | c :: r2 =>
    if c = '.' then
      let fp := r2.takeWhile Char.isDigit
      let r3 := r2.dropWhile Char.isDigit
      if ip.isEmpty && fp.isEmpty then none
      else
        match r3 with
        | [] => some (valOf ip fp)
        | e :: r4 =>
          if e = 'e' ∨ e = 'E' then (parseExpInt? r4).map (fun z => valOf ip fp * 10 ^ z)
          else none
    else if c = 'e' ∨ c = 'E' then
      if ip.isEmpty then none else (parseExpInt? r2).map (fun z => valOf ip [] * 10 ^ z)
    else none

/-- Parse a Python float literal with optional sign (the `float(s)` builtin,
which also strips surrounding whitespace). -/
def parsePyFloat? (cs0 : List Char) : Option ℚ :=
  let cs := pyStrip cs0
  match cs with
  | [] => none
  | c :: rest =>
    if c = '-' then (parseUnsigned? rest).map (fun q => -q)
    else if c = '+' then parseUnsigned? rest
    else parseUnsigned? cs

/-- ASCII lowercase mapping of one character. -/
def charLower (c : Char) : Char :=
  if 'A' ≤ c ∧ c ≤ 'Z' then Char.ofNat (c.toNat + 32) else c

/-- Python `str.lower()`.  Only the ASCII case mapping is modelled: every
string the program compares against its lowercase configuration sets is
ASCII. -/
def pyLower (s : String) : String := String.mk (s.data.map charLower)

/-- Python `str()` of a JSON-decoded value, as used for the `project`,
`chain`, `symbol`, `pool` and chain-id fallback fields.  Strings pass
through unchanged and integers render as their decimal digits; the
remaining cases (floats with a fractional part, lists, dicts) are rendered
approximately — the program only ever compares these strings against fixed
lowercase protocol/chain names, which none of them can equal. -/
def pyStr : JVal → String
  | .str s => s
  | .null => "None"
  | .bool b => if b then "True" else "False"
  | .num q =>
    if q.den = 1 then
      String.mk ((if q.num < 0 then ['-'] else []) ++ natDigs q.num.natAbs)
    else
      String.mk ((if q.num < 0 then ['-'] else []) ++ natDigs q.num.natAbs
        ++ '/' :: natDigs q.den)
  | .arr _ => "[list]"
  | .obj _ => "(dict)"

/-! ## Configuration constants (`defi_scanner.py` lines 13-49, 191-196) -/

/-- `SORT_MODE`: the process-wide sort-mode configuration, fixed at
startup. -/
def SORT_MODE : String := "ror"

/-- `MIN_APY`. -/
def MIN_APY : ℚ := 5
/-- `MIN_TVL`. -/
def MIN_TVL : ℚ := 500000
/-- `MIN_LIQUIDITY`. -/
def MIN_LIQUIDITY : ℚ := 100000

/-- `FOCUS_PROTOCOLS` (a Python set; only membership is used). -/
def FOCUS_PROTOCOLS : List String :=
  ["beefy", "yearn", "radiant", "aave", "aave-v3", "venus", "morpho",
   "pancakeswap", "raydium", "lido", "marinade", "eigenlayer",
   "kamino", "krystal", "turbo"]

/-- `LAYER2_CHAINS`. -/
def LAYER2_CHAINS : List String :=
  ["arbitrum", "optimism", "zksync", "base", "scroll", "linea"]

/-- `OPPORTUNITY_TYPE_MAP`. -/
def OPPORTUNITY_TYPE_MAP : List (String × String) :=
  [("beefy", "Vault / Auto-compounding"),
   ("yearn", "Vault / Auto-compounding"),
   ("lido", "Staking / Restaking"),
   ("marinade", "Staking / Restaking"),
   ("kamino", "Vault / Auto-compounding"),
   ("krystal", "Vault / Auto-compounding"),
   ("turbo", "Yield Farming"),
   ("raydium", "Yield Farming"),
   ("pancakeswap", "Yield Farming"),
   ("aave", "Lending / Borrowing"),
   ("aave-v3", "Lending / Borrowing"),
   ("venus", "Lending / Borrowing"),
   ("morpho", "Lending / Borrowing"),
   ("radiant", "Lending / Borrowing"),
   ("eigenlayer", "Staking / Restaking")]

/-- `CHAIN_ID_MAP` (keys are Python ints). -/
def CHAIN_ID_MAP : List (ℤ × String) :=
  [(1, "eth"), (56, "bsc"), (101, "sol"), (1001, "sui"), (108, "tao"),
   (42161, "arbitrum"), (10, "optimism"), (8453, "base")]

/-- `MEME_CHAINS`. -/
def MEME_CHAINS : List String :=
  ["sui", "tao", "eth", "bsc", "sol", "base", "optimism", "arbitrum"]

/-! ## Data models (`defi_scanner.py` lines 52-85) -/

/-- `YieldEntry` (a frozen dataclass). -/
structure YieldEntry where
  project : String
  chain : String
  apy_str : String
  symbol : String
  tvl_str : String
  risk : String
  pool_id : String
  ror : ℚ
  type : String
deriving DecidableEq, Repr

/-- `YieldEntry.apy_value`: strip every `%`, strip whitespace, parse as a
float; `0.0` on failure. -/
def YieldEntry.apy_value (e : YieldEntry) : ℚ :=
  (parsePyFloat? (e.apy_str.data.filter (fun c => c ≠ '%'))).getD 0

/-- `YieldEntry.tvl_value`: strip every `$` and `,`, strip whitespace,
parse as a float; `0.0` on failure. -/
def YieldEntry.tvl_value (e : YieldEntry) : ℚ :=
  (parsePyFloat? (e.tvl_str.data.filter (fun c => c ≠ '$' ∧ c ≠ ','))).getD 0

/-- `MemeEntry` (a frozen dataclass). -/
structure MemeEntry where
  symbol : String
  chain : String
  price_usd : String
  liquidity_usd : String
  volume_24h_usd : String
  change_24h_pct : String
  risk : String
deriving DecidableEq, Repr

/-! ## Utilities (`defi_scanner.py` lines 88-120) -/

/-- Outcome of the network layer below `safe_request`: either the request
itself fails (connection error / timeout), or an HTTP response arrives with
a status code and a body that either is valid JSON (`some v`) or is not
(`none`). -/
inductive NetOutcome where
  | netErr : String → NetOutcome
  | response : ℕ → Option JVal → NetOutcome

/-- `safe_request`: returns the decoded JSON body on success and the dict
`\x7b"error": str(e)\x7d` when the request fails, `raise_for_status` raises
(status 400-599), or the body is not valid JSON. -/
def safe_request : NetOutcome → JVal
  | .netErr m => .obj [("error", .str m)]
  | .response st body =>
    if 400 ≤ st ∧ st < 600 then .obj [("error", .str "HTTPError")]
    else
      match body with
      | none => .obj [("error", .str "JSONDecodeError")]
      | some v => v

/-- `risk_score` (lines 97-107): focus protocols are Low unconditionally,
then the numeric bands are tried in source order. -/
def risk_score (apy tvl : ℚ) (project : String) : String :=
  let pj := pyLower project
  if pj ∈ FOCUS_PROTOCOLS then "Low"
  else if tvl > 50000000 ∧ apy < 15 then "Low"
  else if 5000000 ≤ tvl ∧ tvl ≤ 50000000 ∧ 15 ≤ apy ∧ apy ≤ 50 then "Medium"
  else if tvl < 5000000 ∨ apy > 50 then "High"
  else "Medium"

/-- The `risk_factor` dict inside `calc_ror`. -/
def risk_factor : List (String × ℚ) :=
  [("Low", 1), ("Medium", 6/10), ("High", 3/10)]

/-- `calc_ror` (lines 110-112): `apy * risk_factor.get(score, 0.5)`. -/
def calc_ror (apy : ℚ) (score : String) : ℚ :=
  apy * ((risk_factor.lookup score).getD (1/2))

/-- `sort_key` (lines 115-120), with the global `SORT_MODE` made an explicit
parameter (the program always passes `SORT_MODE = "ror"`). -/
def sort_key (mode : String) (e : YieldEntry) : ℚ :=
  if mode = "apy" ∨ mode = "apr" then e.apy_value
  else if mode = "tvl" then e.tvl_value
  else e.ror

/-- `sorted(xs, key=k, reverse=True)`: Python sorted is stable, i.e. it
keeps the original relative order of elements with equal keys; with
`reverse=True` it compares keys descending but still keeps ties in original
order.  `List.insertionSort` with the reflexive descending relation has
exactly this behavior. -/
def pySortDesc {α : Type} (k : α → ℚ) (l : List α) : List α :=
  List.insertionSort (fun a b => k b ≤ k a) l

/-! ## Yield classifier (`classify_yield_opportunities`, lines 123-188) -/

/-- The four bucket lists built by the classifier, in the order of the
returned dict. -/
structure Buckets where
  long_term : List YieldEntry
  short_term : List YieldEntry
  focus : List YieldEntry
  layer2 : List YieldEntry
deriving DecidableEq, Repr

/-- The all-empty result returned on a feed failure. -/
def emptyBuckets : Buckets := ⟨[], [], [], []⟩

/-- Loop-body field extraction, line 142: `raw.get("apy")` followed by the
`isinstance` check on line 149; `none` when the record will be skipped. -/
def poolApy? (raw : JVal) : Option ℚ :=
  match raw with
  | .obj fs =>
    match jget fs "apy" with
    | some v => if v.isPyNum then some v.numVal else none
    | none => none
  | _ => none

/-- Line 143: `raw.get("tvlUsd", 0)` followed by the `isinstance` check. -/
def poolTvl? (raw : JVal) : Option ℚ :=
  match raw with
  | .obj fs =>
    let v := (jget fs "tvlUsd").getD (.num 0)
    if v.isPyNum then some v.numVal else none
  | _ => none

/-- Line 144: `str(raw.get("project", "") or "")`. -/
def poolProject (raw : JVal) : String :=
  match raw with
  | .obj fs => pyStr (pyOr ((jget fs "project").getD (.str "")) (.str ""))
  | _ => ""

/-- Line 145: `str(raw.get("chain", "N/A") or "N/A").lower()`. -/
def poolChain (raw : JVal) : String :=
  match raw with
  | .obj fs => pyLower (pyStr (pyOr ((jget fs "chain").getD (.str "N/A")) (.str "N/A")))
  | _ => ""

/-- Line 146: `str(raw.get("symbol", "N/A") or "N/A")`. -/
def poolSymbol (raw : JVal) : String :=
  match raw with
  | .obj fs => pyStr (pyOr ((jget fs "symbol").getD (.str "N/A")) (.str "N/A"))
  | _ => ""

/-- Line 147: `str(raw.get("pool", "") or "")`. -/
def poolId (raw : JVal) : String :=
  match raw with
  | .obj fs => pyStr (pyOr ((jget fs "pool").getD (.str "")) (.str ""))
  | _ => ""

/-- The guard chain of lines 138-156: the record is a dict, `apy` and
`tvlUsd` pass the `isinstance` numeric check, and neither
`apy < MIN_APY` nor `tvl < MIN_TVL` holds. -/
def retainedPool (raw : JVal) : Bool :=
  match poolApy? raw, poolTvl? raw with
  | some apy, some tvl => !(apy < MIN_APY ∨ tvl < MIN_TVL)
  | _, _ => false

/-- The numeric `apy` of a retained record (junk default `0` otherwise). -/
def poolApyD (raw : JVal) : ℚ := (poolApy? raw).getD 0

/-- The numeric `tvl` of a retained record (junk default `0` otherwise). -/
def poolTvlD (raw : JVal) : ℚ := (poolTvl? raw).getD 0

/-- The `YieldEntry` constructed on lines 158-172 for a retained record. -/
def mkEntry (raw : JVal) : YieldEntry :=
  let apy := poolApyD raw
  let tvl := poolTvlD raw
  let project := poolProject raw
  let score := risk_score apy tvl project
  { project := project
    chain := poolChain raw
    apy_str := String.mk (fmt2Chars apy ++ ['%'])
    symbol := poolSymbol raw
    tvl_str := String.mk (fmtMoneyChars tvl)
    risk := score
    pool_id := poolId raw
    ror := calc_ror apy score
    type := (OPPORTUNITY_TYPE_MAP.lookup (pyLower project)).getD "Unknown" }

/-- One iteration of the `for raw in pools` loop (lines 138-181): skip the
record unless it passes the guards, then append the constructed entry to
the buckets chosen on lines 174-181. -/
def stepPool (acc : Buckets) (raw : JVal) : Buckets :=
  if retainedPool raw then
    let e := mkEntry raw
    let score := e.risk
    let inFocus := pyLower (poolProject raw) ∈ FOCUS_PROTOCOLS
    let acc1 := if inFocus then { acc with focus := acc.focus ++ [e] } else acc
    let acc2 :=
      if score = "Low" ∧ ¬inFocus then { acc1 with long_term := acc1.long_term ++ [e] }
      else if score ≠ "Low" ∧ ¬inFocus then { acc1 with short_term := acc1.short_term ++ [e] }
      else acc1
    if e.chain ∈ LAYER2_CHAINS then { acc2 with layer2 := acc2.layer2 ++ [e] } else acc2
  else acc

/-- `classify_yield_opportunities` applied to the value returned by
`safe_request` for the pools feed.  A dict body is processed (an `"error"`
key meaning the degraded all-empty result); any non-dict body makes the
Python function raise: `"error" in data` raises `TypeError` for
non-iterable bodies, and for string or list bodies either the
`data["error"]` subscript or the `data.get` attribute access raises.
The global `SORT_MODE` is an explicit parameter (the program always passes
`"ror"`). -/
def classify_yield_opportunities (mode : String) (data : JVal) : Except String Buckets :=
  match data with
  | .obj fs =>
    if hasKey fs "error" then .ok emptyBuckets
    else
      let pools := match jget fs "data" with
        | some (.arr l) => l
        | some _ => []
        | none => []
      let b := pools.foldl stepPool emptyBuckets
      .ok { long_term := (pySortDesc (sort_key mode) b.long_term).take 10
            short_term := (pySortDesc (sort_key mode) b.short_term).take 10
            focus := (pySortDesc (sort_key mode) b.focus).take 10
            layer2 := (pySortDesc (sort_key mode) b.layer2).take 10 }
  | .str _ => .error "TypeError or AttributeError: response body is a string, not a dict"
  | .arr _ => .error "TypeError or AttributeError: response body is a list, not a dict"
  | _ => .error "TypeError: argument of type is not iterable"

/-! ## Meme-coin scanner (`get_meme_coins`, lines 198-256) -/

/-- A surviving candidate tuple `(p, liq, vol24, change24)` (line 228). -/
structure Cand where
  pair : JVal
  liq : ℚ
  vol : ℚ
  chg : ℚ

/-- The Python hash key of a `chainId` value, used to look it up in the
int-keyed `CHAIN_ID_MAP`: Python `True == 1`, `False == 0`, and a float
equals the int it represents, so all of these can hit an int key; strings
and `None` are hashable but never equal an int; lists and dicts are
unhashable and make `dict.get` raise `TypeError`. -/
def chainIdKey : JVal → Option ℤ
  | .num q => if q.den = 1 then some q.num else none
  | .bool b => some (if b then 1 else 0)
  | _ => none

/-- Is the value usable as a Python dict key at all? -/
def hashable : JVal → Bool
  | .arr _ => false
  | .obj _ => false
  | _ => true

/-- Line 219: `CHAIN_ID_MAP.get(chain_id, str(chain_id)).lower()`. -/
def resolvedChain (cid : JVal) : String :=
  pyLower
    (match chainIdKey cid with
     | some k => (CHAIN_ID_MAP.lookup k).getD (pyStr cid)
     | none => pyStr cid)

/-- Lines 223-225: `float(p.get(key, {}).get(sub, 0) or 0)`.  Raises
(`Except.error`) when the field is present but not a dict (`AttributeError`),
when the leaf is a non-empty list or dict (`TypeError`), or when it is a
string that does not parse as a float (`ValueError`). -/
def parseUsdField (fs : List (String × JVal)) (key sub : String) : Except String ℚ :=
  match (jget fs key).getD (.obj []) with
  | .obj g =>
    let leaf := pyOr ((jget g sub).getD (.num 0)) (.num 0)
    match leaf with
    | .num q => .ok q
    | .bool b => .ok (if b then 1 else 0)
    | .str s =>
      match parsePyFloat? s.data with
      | some q => .ok q
      | none => .error "ValueError: could not convert string to float"
    | .null => .ok 0
    | _ => .error "TypeError: float() argument"
  | _ => .error "AttributeError: object has no attribute get"

/-- One iteration of the `for p in pairs` filtering loop (lines 214-228).
The state is the pair `(chain, candidates)`: `chain` is the loop variable
assigned on line 219, which stays live after the loop and is (incorrectly)
the chain stored into every entry of this term on line 247. -/
def pairStep (st : String × List Cand) (p : JVal) : Except String (String × List Cand) :=
  match p with
  | .obj fs =>
    let cid := (jget fs "chainId").getD (.num 0)
    if hashable cid then
      let chain := resolvedChain cid
      if chain ∈ MEME_CHAINS then do
        let liq ← parseUsdField fs "liquidity" "usd"
        let vol ← parseUsdField fs "volume" "h24"
        let chg ← parseUsdField fs "priceChange" "h24"
        if liq ≥ MIN_LIQUIDITY ∧ vol ≥ (1/10) * liq then
          .ok (chain, st.2 ++ [⟨p, liq, vol, chg⟩])
        else .ok (chain, st.2)
      else .ok (chain, st.2)
    else .error "TypeError: unhashable type"
  | _ => .ok st

/-- Lines 232-254: build a `MemeEntry` from a kept candidate.  `chain` is
the leftover loop variable, not a field of the candidate. -/
def buildMemeEntry (chain : String) (c : Cand) : MemeEntry :=
  let bt := match c.pair with
    | .obj fs =>
      match (jget fs "baseToken").getD (.obj []) with
      | .obj g => g
      | _ => []
    | _ => []
  let score :=
    if c.chg > 0 ∧ c.liq > 1000000 then "Low"
    else if c.chg < -30 then "High"
    else "Medium"
  { symbol := pyStr (pyOr ((jget bt "symbol").getD (.str "?")) (.str "?"))
    chain := chain
    price_usd :=
      match c.pair with
      | .obj fs => pyStr (pyOr ((jget fs "priceUsd").getD (.str "N/A")) (.str "N/A"))
      | _ => "N/A"
    liquidity_usd := String.mk (fmtMoneyChars c.liq)
    volume_24h_usd := String.mk (fmtMoneyChars c.vol)
    change_24h_pct := String.mk (fmt2Chars c.chg ++ ['%'])
    risk := score }

/-- Processing of one search term (loop body, lines 203-254) applied to the
value `safe_request` returned for that term.  A failed term (`"error"` key)
contributes nothing; a non-dict body raises exactly as in
`classify_yield_opportunities`.  The `chain` loop variable is reset to `""`
per term: it is only read when this term kept at least one candidate, and a
kept candidate implies the variable was reassigned inside this term, so the
cross-term leakage of the Python variable is unobservable. -/
def termPairs (fs : List (String × JVal)) : List JVal :=
  match jget fs "pairs" with
  | some (.arr l) => l
  | some _ => []
  | none => []

/-- Processing of one search term (see the comment on `termPairs` above,
which documents the whole loop body of lines 203-254). -/
def termEntries (data : JVal) : Except String (List MemeEntry) :=
  match data with
  | .obj fs =>
    if hasKey fs "error" then .ok []
    else
      let pairs := termPairs fs
      do
        let st ← pairs.foldlM pairStep ("", [])
        let top := (pySortDesc (fun c => c.vol) st.2).take 3
        .ok (top.map (buildMemeEntry st.1))
  | .str _ => .error "TypeError or AttributeError: response body is a string, not a dict"
  | .arr _ => .error "TypeError or AttributeError: response body is a list, not a dict"
  | _ => .error "TypeError: argument of type is not iterable"

/-- `get_meme_coins` applied to the five per-term `safe_request` results
(the fixed queries are pepe, doge, shiba, floki, bonk; each element of
`feeds` is the body for one query, in query order).  The per-term entry
lists are concatenated in term order and the global list is cut to its
first 12 elements. -/
def get_meme_coins (feeds : List JVal) : Except String (List MemeEntry) := do
  let results ← feeds.foldlM (fun acc d => do
    let es ← termEntries d
    pure (acc ++ es)) []
  .ok (results.take 12)

/-- `get_top_picks` (lines 258-260): stable descending sort by `ror`, first
five entries. -/
def get_top_picks (all_opportunities : List YieldEntry) : List YieldEntry :=
  (pySortDesc (fun e => e.ror) all_opportunities).take 5

/-- `app.py` lines 476-479: the flattened concatenation of the four
classifier buckets, in the iteration order of the returned dict; duplicates
across buckets are kept. -/
def allOpportunities (b : Buckets) : List YieldEntry :=
  b.long_term ++ b.short_term ++ b.focus ++ b.layer2

/-! ## Digit and parser lemmas -/

theorem digitVal_digitChar {m : ℕ} (h : m < 10) : digitVal (digitChar m) = m := by
  interval_cases m <;> rfl

theorem digitChar_isDigit {m : ℕ} (h : m < 10) : (digitChar m).isDigit = true := by
  interval_cases m <;> rfl

theorem parseNatChars_append_one (xs : List Char) (c : Char) :
    parseNatChars (xs ++ [c]) = 10 * parseNatChars xs + digitVal c := by
  simp [parseNatChars, List.foldl_append]

theorem parseNatChars_natDigsAux {fuel n : ℕ} (h : n < fuel) :
    parseNatChars (natDigsAux fuel n) = n := by
  induction fuel generalizing n with
  | zero => omega
  | succ f ih =>
    rw [natDigsAux]
    split
    · rename_i h10
      simp [parseNatChars, digitVal_digitChar h10]
    · rename_i h10
      rw [parseNatChars_append_one, ih (by omega), digitVal_digitChar (Nat.mod_lt _ (by omega))]
      omega

theorem parseNatChars_natDigs (n : ℕ) : parseNatChars (natDigs n) = n :=
  parseNatChars_natDigsAux (Nat.lt_succ_self n)

theorem natDigsAux_isDigit {fuel n : ℕ} {c : Char} (hc : c ∈ natDigsAux fuel n) :
    c.isDigit = true := by
  induction fuel generalizing n with
  | zero => simp [natDigsAux] at hc
  | succ f ih =>
    rw [natDigsAux] at hc
    split at hc
    · rename_i h10
      simp at hc
      subst hc
      exact digitChar_isDigit h10
    · rcases List.mem_append.mp hc with h | h
      · exact ih h
      · simp at h
        subst h
        exact digitChar_isDigit (Nat.mod_lt _ (by omega))

theorem natDigs_isDigit {n : ℕ} {c : Char} (hc : c ∈ natDigs n) : c.isDigit = true :=
  natDigsAux_isDigit hc

theorem natDigs_ne_nil (n : ℕ) : natDigs n ≠ [] := by
  rw [natDigs, natDigsAux]
  split <;> simp

theorem pad2_isDigit {k : ℕ} {c : Char} (hc : c ∈ pad2 k) (hk : k < 100) :
    c.isDigit = true := by
  simp [pad2] at hc
  rcases hc with h | h <;> subst h
  · exact digitChar_isDigit (by omega)
  · exact digitChar_isDigit (Nat.mod_lt _ (by omega))

theorem parseNatChars_pad2 {k : ℕ} (hk : k < 100) : parseNatChars (pad2 k) = k := by
  show parseNatChars ([digitChar (k / 10)] ++ [digitChar (k % 10)]) = k
  rw [parseNatChars_append_one, digitVal_digitChar (Nat.mod_lt _ (by omega))]
  have : parseNatChars [digitChar (k / 10)] = k / 10 := by
    simp [parseNatChars, digitVal_digitChar (show k / 10 < 10 by omega)]
  rw [this]
  omega

theorem takeWhile_all {p : Char → Bool} {l : List Char} (h : ∀ c ∈ l, p c = true) :
    l.takeWhile p = l := by
  induction l with
  | nil => rfl
  | cons a l ih =>
    rw [List.takeWhile_cons, h a (by simp)]
    simp [ih fun c hc => h c (by simp [hc])]

theorem dropWhile_all {p : Char → Bool} {l : List Char} (h : ∀ c ∈ l, p c = true) :
    l.dropWhile p = [] := by
  induction l with
  | nil => rfl
  | cons a l ih =>
    rw [List.dropWhile_cons, h a (by simp)]
    simp [ih fun c hc => h c (by simp [hc])]

theorem takeWhile_append_stop {p : Char → Bool} {xs ys : List Char} {y : Char}
    (hx : ∀ c ∈ xs, p c = true) (hy : p y = false) :
    (xs ++ y :: ys).takeWhile p = xs := by
  induction xs with
  | nil => simp [List.takeWhile_cons, hy]
  | cons a xs ih =>
    rw [List.cons_append, List.takeWhile_cons, hx a (by simp)]
    simp [ih fun c hc => hx c (by simp [hc])]

theorem dropWhile_append_stop {p : Char → Bool} {xs ys : List Char} {y : Char}
    (hx : ∀ c ∈ xs, p c = true) (hy : p y = false) :
    (xs ++ y :: ys).dropWhile p = y :: ys := by
  induction xs with
  | nil => simp [List.dropWhile_cons, hy]
  | cons a xs ih =>
    rw [List.cons_append, List.dropWhile_cons, hx a (by simp)]
    simp [ih fun c hc => hx c (by simp [hc])]

theorem dropWhile_all_false {p : Char → Bool} {l : List Char} (h : ∀ c ∈ l, p c = false) :
    l.dropWhile p = l := by
  cases l with
  | nil => rfl
  | cons a l =>
    rw [List.dropWhile_cons, h a (by simp)]
    simp

theorem pyStrip_no_ws {l : List Char} (h : ∀ c ∈ l, c.isWhitespace = false) :
    pyStrip l = l := by
  rw [pyStrip, dropWhile_all_false h, dropWhile_all_false (fun c hc => h c (by simpa using hc))]
  simp

/-- The character properties needed of rendered digits: not whitespace, and
distinct from every marker character the formatting and parsing code treats
specially. -/
def plainDigit (c : Char) : Prop :=
  c.isWhitespace = false ∧ c ≠ '-' ∧ c ≠ '+' ∧ c ≠ '%' ∧ c ≠ '$' ∧ c ≠ ',' ∧ c ≠ '.'

theorem digitChar_plain {m : ℕ} (h : m < 10) : plainDigit (digitChar m) := by
  interval_cases m <;> refine ⟨rfl, ?_, ?_, ?_, ?_, ?_, ?_⟩ <;> decide

theorem natDigsAux_plain {fuel n : ℕ} {c : Char} (hc : c ∈ natDigsAux fuel n) :
    plainDigit c := by
  induction fuel generalizing n with
  | zero => simp [natDigsAux] at hc
  | succ f ih =>
    rw [natDigsAux] at hc
    split at hc
    · rename_i h10
      simp at hc
      subst hc
      exact digitChar_plain h10
    · rcases List.mem_append.mp hc with h | h
      · exact ih h
      · simp at h
        subst h
        exact digitChar_plain (Nat.mod_lt _ (by omega))

theorem natDigs_plain {n : ℕ} {c : Char} (hc : c ∈ natDigs n) : plainDigit c :=
  natDigsAux_plain hc

theorem pad2_plain {k : ℕ} {c : Char} (hc : c ∈ pad2 k) (hk : k < 100) : plainDigit c := by
  simp [pad2] at hc
  rcases hc with h | h <;> subst h
  · exact digitChar_plain (by omega)
  · exact digitChar_plain (Nat.mod_lt _ (by omega))

theorem parseUnsigned_digits {ds : List Char} (hd : ∀ c ∈ ds, c.isDigit = true)
    (hne : ds ≠ []) : parseUnsigned? ds = some (valOf ds []) := by
  rw [parseUnsigned?]
  simp only [takeWhile_all hd, dropWhile_all hd]
  simp [List.isEmpty_iff, hne]

theorem parseUnsigned_digits_dot {ds fs : List Char} (hd : ∀ c ∈ ds, c.isDigit = true)
    (hf : ∀ c ∈ fs, c.isDigit = true) (hne : ds ≠ []) :
    parseUnsigned? (ds ++ '.' :: fs) = some (valOf ds fs) := by
  have hdot : Char.isDigit '.' = false := rfl
  rw [parseUnsigned?]
  simp only [takeWhile_append_stop hd hdot, dropWhile_append_stop hd hdot]
  simp only [if_pos rfl, takeWhile_all hf, dropWhile_all hf]
  simp [List.isEmpty_iff, hne]

theorem valOf_digs_pad2 (a b : ℕ) (hb : b < 100) :
    valOf (natDigs a) (pad2 b) = (a : ℚ) + (b : ℚ) / 100 := by
  rw [valOf, parseNatChars_natDigs, parseNatChars_pad2 hb]
  norm_num [pad2]

theorem natAbs_div_mod_q (m : ℤ) :
    ((m.natAbs / 100 : ℕ) : ℚ) + ((m.natAbs % 100 : ℕ) : ℚ) / 100 = (m.natAbs : ℚ) / 100 := by
  field_simp
  exact_mod_cast (by omega : (m.natAbs / 100) * 100 + m.natAbs % 100 = m.natAbs)

theorem cast_natAbs_neg {m : ℤ} (h : m < 0) : ((m.natAbs : ℕ) : ℚ) = -(m : ℚ) := by
  rw [Int.cast_natAbs, abs_of_neg (by exact_mod_cast h)]
  push_cast
  ring

theorem cast_natAbs_nonneg {m : ℤ} (h : ¬ m < 0) : ((m.natAbs : ℕ) : ℚ) = (m : ℚ) := by
  rw [Int.cast_natAbs, abs_of_nonneg (by exact_mod_cast not_lt.mp h)]

theorem parsePyFloat_eq_unsigned {d : Char} {rest : List Char}
    (hws : ∀ c ∈ d :: rest, c.isWhitespace = false)
    (hd1 : d ≠ '-') (hd2 : d ≠ '+') :
    parsePyFloat? (d :: rest) = parseUnsigned? (d :: rest) := by
  rw [parsePyFloat?]
  simp only [pyStrip_no_ws hws]
  rw [if_neg hd1, if_neg hd2]

theorem parsePyFloat_neg {rest : List Char}
    (hws : ∀ c ∈ '-' :: rest, c.isWhitespace = false) :
    parsePyFloat? ('-' :: rest) = (parseUnsigned? rest).map (fun q => -q) := by
  rw [parsePyFloat?]
  simp only [pyStrip_no_ws hws]
  simp

/-- Round trip of the `"%.2f"` formatter through the Python float parser:
the parsed value is the input rounded to two decimal places. -/
theorem parsePyFloat_fmt2 (q : ℚ) : parsePyFloat? (fmt2Chars q) = some (round2 q) := by
  have hb : (round2Int q).natAbs % 100 < 100 := Nat.mod_lt _ (by omega)
  have hd : ∀ c ∈ natDigs ((round2Int q).natAbs / 100), c.isDigit = true :=
    fun c hc => natDigs_isDigit hc
  have hf : ∀ c ∈ pad2 ((round2Int q).natAbs % 100), c.isDigit = true :=
    fun c hc => pad2_isDigit hc hb
  have hws : ∀ c ∈ natDigs ((round2Int q).natAbs / 100) ++
      '.' :: pad2 ((round2Int q).natAbs % 100), c.isWhitespace = false := by
    intro c hc
    rcases List.mem_append.mp hc with h | h
    · exact (natDigs_plain h).1
    · rcases List.mem_cons.mp h with h | h
      · subst h; rfl
      · exact (pad2_plain h hb).1
  by_cases hm : round2Int q < 0
  · rw [fmt2Chars]
    simp only [if_pos hm, List.singleton_append, List.cons_append, List.nil_append]
    rw [parsePyFloat_neg (by
      intro c hc
      rcases List.mem_cons.mp hc with h | h
      · subst h; rfl
      · exact hws c h)]
    rw [parseUnsigned_digits_dot hd hf (natDigs_ne_nil _), valOf_digs_pad2 _ _ hb]
    have : ((((round2Int q).natAbs / 100 : ℕ) : ℚ) + (((round2Int q).natAbs % 100 : ℕ) : ℚ) / 100)
        = -(round2 q) := by
      rw [natAbs_div_mod_q, cast_natAbs_neg hm, round2]
      ring
    rw [Option.map]
    rw [this]
    simp
  · rw [fmt2Chars]
    simp only [if_neg hm, List.nil_append]
    obtain ⟨d, ds, hds⟩ := List.exists_cons_of_ne_nil (natDigs_ne_nil ((round2Int q).natAbs / 100))
    have hdplain : plainDigit d := natDigs_plain (by rw [hds]; simp)
    rw [hds, List.cons_append]
    rw [parsePyFloat_eq_unsigned (by
        rw [← List.cons_append, ← hds]
        exact hws) hdplain.2.1 hdplain.2.2.1]
    rw [← List.cons_append, ← hds, parseUnsigned_digits_dot hd hf (natDigs_ne_nil _)]
    rw [valOf_digs_pad2 _ _ hb]
    congr 1
    rw [natAbs_div_mod_q, cast_natAbs_nonneg hm, round2]

theorem filter_group3RevAux {p : Char → Bool} (hcomma : p ',' = false) :
    ∀ (fuel : ℕ) (ds : List Char), (∀ c ∈ ds, p c = true) →
      (group3RevAux fuel ds).filter p = ds := by
  intro fuel
  induction fuel with
  | zero => intro ds h; exact List.filter_eq_self.mpr h
  | succ f ih =>
    intro ds h
    rw [group3RevAux]
    split
    · exact List.filter_eq_self.mpr h
    · rw [List.filter_append, List.filter_cons, hcomma]
      simp only [Bool.false_eq_true, if_false]
      rw [List.filter_eq_self.mpr fun c hc => h c (List.take_subset 3 ds hc),
        ih (ds.drop 3) fun c hc => h c (List.mem_of_mem_drop hc)]
      exact List.take_append_drop 3 ds

theorem filter_group3 {p : Char → Bool} (hcomma : p ',' = false) {ds : List Char}
    (h : ∀ c ∈ ds, p c = true) : (group3 ds).filter p = ds := by
  rw [group3, group3Rev, List.filter_reverse,
    filter_group3RevAux hcomma _ ds.reverse fun c hc => h c (List.mem_reverse.mp hc)]
  exact List.reverse_reverse ds

theorem valOf_digs (a : ℕ) : valOf (natDigs a) [] = (a : ℚ) := by
  rw [valOf, parseNatChars_natDigs]
  simp [parseNatChars]

/-- Round trip of the `"$%,.0f"` money formatter through the character
stripping done by `tvl_value` and the Python float parser: the parsed value
is the input rounded to the nearest integer. -/
theorem parsePyFloat_money (q : ℚ) :
    parsePyFloat? ((fmtMoneyChars q).filter (fun c => c ≠ '$' ∧ c ≠ ',')) =
      some (round0 q) := by
  have hd : ∀ c ∈ natDigs (roundQ q).natAbs, c.isDigit = true := fun c hc => natDigs_isDigit hc
  have hfil : (group3 (natDigs (roundQ q).natAbs)).filter (fun c => c ≠ '$' ∧ c ≠ ',') =
      natDigs (roundQ q).natAbs := by
    apply filter_group3 (by decide)
    intro c hc
    have h := natDigs_plain hc
    simp [h.2.2.2.2.1, h.2.2.2.2.2.1]
  have hws : ∀ c ∈ natDigs (roundQ q).natAbs, c.isWhitespace = false :=
    fun c hc => (natDigs_plain hc).1
  rw [fmtMoneyChars]
  by_cases hm : roundQ q < 0
  · simp only [if_pos hm, List.singleton_append, List.cons_append, List.nil_append]
    have hside : (('$' :: '-' :: group3 (natDigs (roundQ q).natAbs)).filter
        (fun c => c ≠ '$' ∧ c ≠ ',')) =
        '-' :: ((group3 (natDigs (roundQ q).natAbs)).filter (fun c => c ≠ '$' ∧ c ≠ ',')) := by
      simp [List.filter_cons]
    rw [hside, hfil, parsePyFloat_neg (by
      intro c hc
      rcases List.mem_cons.mp hc with h | h
      · subst h; rfl
      · exact hws c h)]
    rw [parseUnsigned_digits hd (natDigs_ne_nil _), valOf_digs]
    rw [Option.map, cast_natAbs_neg hm, round0]
    simp
  · simp only [if_neg hm, List.nil_append, List.singleton_append, List.cons_append]
    have hside : (('$' :: group3 (natDigs (roundQ q).natAbs)).filter
        (fun c => c ≠ '$' ∧ c ≠ ',')) =
        (group3 (natDigs (roundQ q).natAbs)).filter (fun c => c ≠ '$' ∧ c ≠ ',') := by
      simp [List.filter_cons]
    rw [hside, hfil]
    obtain ⟨d, ds, hds⟩ := List.exists_cons_of_ne_nil (natDigs_ne_nil (roundQ q).natAbs)
    have hdplain : plainDigit d := natDigs_plain (by rw [hds]; simp)
    rw [hds, parsePyFloat_eq_unsigned (by rw [← hds]; exact hws) hdplain.2.1 hdplain.2.2.1,
      ← hds, parseUnsigned_digits hd (natDigs_ne_nil _), valOf_digs]
    rw [cast_natAbs_nonneg hm, round0]

theorem fmt2Chars_shape {q : ℚ} {c : Char} (hc : c ∈ fmt2Chars q) :
    plainDigit c ∨ c = '-' ∨ c = '.' := by
  rw [fmt2Chars] at hc
  rcases List.mem_append.mp hc with h | h
  · rcases List.mem_append.mp h with h | h
    · split at h
      · simp at h
        exact Or.inr (Or.inl h)
      · simp at h
    · exact Or.inl (natDigs_plain h)
  · rcases List.mem_cons.mp h with h | h
    · exact Or.inr (Or.inr h)
    · exact Or.inl (pad2_plain h (Nat.mod_lt _ (by omega)))

/-- `apy_value` of a constructed entry: the `"%.2f%%"` string round-trips to
the apy rounded to two decimal places. -/
theorem apy_value_mkEntry (raw : JVal) : (mkEntry raw).apy_value = round2 (poolApyD raw) := by
  have hdata : (mkEntry raw).apy_str.data = fmt2Chars (poolApyD raw) ++ ['%'] := rfl
  rw [YieldEntry.apy_value, hdata, List.filter_append]
  have h1 : (fmt2Chars (poolApyD raw)).filter (fun c => c ≠ '%') = fmt2Chars (poolApyD raw) := by
    apply List.filter_eq_self.mpr
    intro c hc
    rcases fmt2Chars_shape hc with h | h | h
    · simp [h.2.2.2.1]
    · subst h; decide
    · subst h; decide
  have h2 : (['%'] : List Char).filter (fun c => c ≠ '%') = [] := by decide
  rw [h1, h2, List.append_nil, parsePyFloat_fmt2]
  rfl

/-- `tvl_value` of a constructed entry: the `"$%,.0f"` string round-trips to
the tvl rounded to the nearest dollar. -/
theorem tvl_value_mkEntry (raw : JVal) : (mkEntry raw).tvl_value = round0 (poolTvlD raw) := by
  have hdata : (mkEntry raw).tvl_str.data = fmtMoneyChars (poolTvlD raw) := rfl
  rw [YieldEntry.tvl_value, hdata, parsePyFloat_money]
  rfl

/-! ## Stability of the descending sort -/

theorem filter_orderedInsert_ne {α : Type} (k : α → ℚ) (v : ℚ) (x : α) (hx : ¬ (k x = v))
    (L : List α) :
    (List.orderedInsert (fun a b => k b ≤ k a) x L).filter (fun e => k e = v) =
      L.filter (fun e => k e = v) := by
  induction L with
  | nil => simp [hx]
  | cons b L ih =>
    rw [List.orderedInsert]
    split
    · simp [List.filter_cons, hx]
    · simp only [List.filter_cons, ih]

theorem filter_orderedInsert_eq {α : Type} (k : α → ℚ) (v : ℚ) (x : α) (hx : k x = v)
    (L : List α) :
    (List.orderedInsert (fun a b => k b ≤ k a) x L).filter (fun e => k e = v) =
      x :: L.filter (fun e => k e = v) := by
  induction L with
  | nil => simp [hx]
  | cons b L ih =>
    rw [List.orderedInsert]
    split
    · simp [List.filter_cons, hx]
    · rename_i hb
      have hbv : ¬ (k b = v) := fun h => hb (le_of_eq (by rw [hx, h]))
      simp [List.filter_cons, hbv, ih]

/-- Stability of `pySortDesc`: elements with any given key value appear in
the sorted output exactly in their original relative order. -/
theorem filter_pySortDesc {α : Type} (k : α → ℚ) (v : ℚ) (l : List α) :
    (pySortDesc k l).filter (fun e => k e = v) = l.filter (fun e => k e = v) := by
  induction l with
  | nil => rfl
  | cons a l ih =>
    rw [pySortDesc, List.insertionSort]
    by_cases ha : k a = v
    · rw [filter_orderedInsert_eq k v a ha, List.filter_cons]
      rw [pySortDesc] at ih
      simp [ha, ih]
    · rw [filter_orderedInsert_ne k v a ha, List.filter_cons]
      rw [pySortDesc] at ih
      simp [ha, ih]

theorem pySortDesc_perm {α : Type} (k : α → ℚ) (l : List α) :
    List.Perm (pySortDesc k l) l :=
  List.perm_insertionSort _ l

theorem pySortDesc_sorted {α : Type} (k : α → ℚ) (l : List α) :
    List.Sorted (fun a b => k b ≤ k a) (pySortDesc k l) := by
  haveI : IsTotal α (fun a b => k b ≤ k a) := ⟨fun a b => le_total (k b) (k a)⟩
  haveI : IsTrans α (fun a b => k b ≤ k a) := ⟨fun a b c h1 h2 => le_trans h2 h1⟩
  exact List.sorted_insertionSort _ l

/-- Decidable equality for `Except`, used to evaluate concrete runs. -/
instance {ε α : Type} [DecidableEq ε] [DecidableEq α] : DecidableEq (Except ε α) :=
  fun x y =>
    match x, y with
    | .ok a, .ok b =>
      if h : a = b then isTrue (by rw [h]) else isFalse (by intro hh; injection hh; contradiction)
    | .error a, .error b =>
      if h : a = b then isTrue (by rw [h]) else isFalse (by intro hh; injection hh; contradiction)
    | .ok _, .error _ => isFalse (by intro h; exact Except.noConfusion h)
    | .error _, .ok _ => isFalse (by intro h; exact Except.noConfusion h)

/-! ## Claim theorems -/

/-- The feed outcomes that the code actually detects as failures: a request
exception, an HTTP status in 400-599 (`raise_for_status`), or a body that
is not valid JSON. -/
def isFeedFailure : NetOutcome → Bool
  | .netErr _ => true
  | .response st body => decide (400 ≤ st ∧ st < 600) || body.isNone

/-- C1 (amended): for every feed outcome the code detects as a failure — a
network error, an HTTP status in 400-599, or a body that is not valid
JSON — `classify_yield_opportunities` returns all four buckets empty and
does not raise.  (The stronger original claim of "never raises for any feed
response whatsoever" is refuted by `c1_counterexample`.) -/
theorem c1_failure_degrades (mode : String) (o : NetOutcome) (h : isFeedFailure o = true) :
    classify_yield_opportunities mode (safe_request o) = .ok emptyBuckets := by
  cases o with
  | netErr m =>
    simp [safe_request, classify_yield_opportunities, hasKey, jget, List.lookup]
  | response st body =>
    rw [isFeedFailure] at h
    simp only [safe_request]
    by_cases hst : 400 ≤ st ∧ st < 600
    · rw [if_pos hst]
      simp [classify_yield_opportunities, hasKey, jget, List.lookup]
    · rw [if_neg hst]
      have hb : body = none := by
        simp [hst] at h
        exact h
      subst hb
      simp [classify_yield_opportunities, hasKey, jget, List.lookup]

theorem c1_witness :
    isFeedFailure (NetOutcome.netErr "connection timed out") = true ∧
    classify_yield_opportunities "ror" (safe_request (NetOutcome.netErr "connection timed out")) =
      Except.ok emptyBuckets :=
  ⟨rfl, c1_failure_degrades "ror" (NetOutcome.netErr "connection timed out") rfl⟩

/-- C1 counterexample: a 200 response whose body is the valid JSON number 7
reaches `"error" in data`, which raises `TypeError` for a non-iterable, so
the classifier does raise past this boundary for some feed responses. -/
theorem c1_counterexample :
    classify_yield_opportunities "ror"
        (safe_request (NetOutcome.response 200 (some (JVal.num 7)))) =
      Except.error "TypeError: argument of type is not iterable" := by
  rfl

/-- C2 counterexample: for the non-focus project "foo" with
`tvl = 10,000,000` (between 5M and 50M) and `apy = 60 > 50`, `risk_score`
returns High (the High branch fires on its `apy > 50` disjunct), not the
claimed default Medium. -/
theorem c2_counterexample :
    risk_score 60 10000000 "foo" = "High" ∧ risk_score 60 10000000 "foo" ≠ "Medium" := by
  decide

/-- C2 (amended): for every project not in the focus set, a tvl between
5,000,000 and 50,000,000 with apy > 50 is NOT a gap between the bands: the
High branch `tvl < 5,000,000 OR apy > 50` matches via its second disjunct,
so `risk_score` returns High, and the default Medium branch is not
reached. -/
theorem c2_risk_gap_is_high (apy tvl : ℚ) (project : String)
    (hfoc : pyLower project ∉ FOCUS_PROTOCOLS)
    (_h1 : 5000000 ≤ tvl) (h2 : tvl ≤ 50000000) (h3 : 50 < apy) :
    risk_score apy tvl project = "High" := by
  simp only [risk_score]
  rw [if_neg hfoc,
    if_neg (fun hband : tvl > 50000000 ∧ apy < 15 => absurd hband.1 (not_lt.mpr h2)),
    if_neg (fun hband : 5000000 ≤ tvl ∧ tvl ≤ 50000000 ∧ 15 ≤ apy ∧ apy ≤ 50 =>
      absurd hband.2.2.2 (not_le.mpr h3)),
    if_pos (Or.inr h3)]

theorem c2_witness :
    pyLower "foo" ∉ FOCUS_PROTOCOLS ∧ (5000000 : ℚ) ≤ 10000000 ∧
    (10000000 : ℚ) ≤ 50000000 ∧ (50 : ℚ) < 60 ∧ risk_score 60 10000000 "foo" = "High" :=
  ⟨by decide, by norm_num, by norm_num, by norm_num,
    c2_risk_gap_is_high 60 10000000 "foo" (by decide) (by norm_num) (by norm_num) (by norm_num)⟩

/-- C5: `calc_ror` multiplies apy by exactly 1.0 / 0.6 / 0.3 for the Low /
Medium / High tiers and by the defensive default 0.5 for any other string;
`risk_score` only ever produces the three named tiers, so the default is
unreachable in the program; and every constructed entry stores
`ror = calc_ror apy risk`. -/
theorem c5_ranking_score (apy tvl : ℚ) (project s : String) (raw : JVal)
    (h : retainedPool raw = true) :
    calc_ror apy "Low" = apy * 1 ∧
    calc_ror apy "Medium" = apy * (6 / 10) ∧
    calc_ror apy "High" = apy * (3 / 10) ∧
    (s ≠ "Low" → s ≠ "Medium" → s ≠ "High" → calc_ror apy s = apy * (1 / 2)) ∧
    (risk_score apy tvl project = "Low" ∨ risk_score apy tvl project = "Medium" ∨
      risk_score apy tvl project = "High") ∧
    (mkEntry raw).ror = calc_ror (poolApyD raw) ((mkEntry raw).risk) := by
  refine ⟨rfl, rfl, rfl, ?_, ?_, rfl⟩
  · intro h1 h2 h3
    have b1 : (s == "Low") = false := beq_eq_false_iff_ne.mpr h1
    have b2 : (s == "Medium") = false := beq_eq_false_iff_ne.mpr h2
    have b3 : (s == "High") = false := beq_eq_false_iff_ne.mpr h3
    simp [calc_ror, risk_factor, List.lookup, b1, b2, b3]
  · simp only [risk_score]
    split
    · exact Or.inl rfl
    split
    · exact Or.inl rfl
    split
    · exact Or.inr (Or.inl rfl)
    split
    · exact Or.inr (Or.inr rfl)
    · exact Or.inr (Or.inl rfl)

theorem c5_witness :
    retainedPool (JVal.obj [("apy", JVal.num 6), ("tvlUsd", JVal.num 600000)]) = true ∧
    (calc_ror 7 "Low" = 7 * 1 ∧
     calc_ror 7 "Medium" = 7 * (6 / 10) ∧
     calc_ror 7 "High" = 7 * (3 / 10) ∧
     ("Weird" ≠ "Low" → "Weird" ≠ "Medium" → "Weird" ≠ "High" →
       calc_ror 7 "Weird" = 7 * (1 / 2)) ∧
     (risk_score 7 8 "x" = "Low" ∨ risk_score 7 8 "x" = "Medium" ∨
       risk_score 7 8 "x" = "High") ∧
     (mkEntry (JVal.obj [("apy", JVal.num 6), ("tvlUsd", JVal.num 600000)])).ror =
       calc_ror (poolApyD (JVal.obj [("apy", JVal.num 6), ("tvlUsd", JVal.num 600000)]))
         ((mkEntry (JVal.obj [("apy", JVal.num 6), ("tvlUsd", JVal.num 600000)])).risk)) :=
  ⟨by decide, c5_ranking_score 7 8 "x" "Weird" _ (by decide)⟩

/-- C6: for the pool record with apy 20, tvlUsd 60,000,000, project
"beefy", chain "eth", symbol "X", pool "p1": focus-set membership forces
risk tier Low (the tvl/apy bands are never consulted), the stored
rankingScore is exactly 20.0, and the classifier places the entry in the
focus bucket and in neither long_term nor short_term (nor layer2, since
"eth" is not a layer-2 chain). -/
theorem c6_focus_scenario :
    risk_score 20 60000000 "beefy" = "Low" ∧
    classify_yield_opportunities "ror"
        (JVal.obj [("data", JVal.arr [JVal.obj
          [("apy", JVal.num 20), ("tvlUsd", JVal.num 60000000),
           ("project", JVal.str "beefy"), ("chain", JVal.str "eth"),
           ("symbol", JVal.str "X"), ("pool", JVal.str "p1")]])]) =
      Except.ok
        { long_term := []
          short_term := []
          focus := [{ project := "beefy", chain := "eth", apy_str := "20.00%", symbol := "X",
                      tvl_str := "$60,000,000", risk := "Low", pool_id := "p1", ror := 20,
                      type := "Vault / Auto-compounding" }]
          layer2 := [] } := by
  constructor
  · rfl
  · with_unfolding_all rfl

/-- C3: every retained pool record is appended to exactly one of long_term,
short_term, focus — to focus exactly when its (lowercased) project is in
the focus set, otherwise to long_term exactly when its risk tier is Low and
to short_term otherwise — and, independently, also to layer2 exactly when
its chain is in the layer-2 set. -/
theorem c3_bucket_partition (acc : Buckets) (raw : JVal) (h : retainedPool raw = true) :
    stepPool acc raw =
      { long_term := acc.long_term ++
          (if (mkEntry raw).risk = "Low" ∧ pyLower (poolProject raw) ∉ FOCUS_PROTOCOLS
           then [mkEntry raw] else [])
        short_term := acc.short_term ++
          (if (mkEntry raw).risk ≠ "Low" ∧ pyLower (poolProject raw) ∉ FOCUS_PROTOCOLS
           then [mkEntry raw] else [])
        focus := acc.focus ++
          (if pyLower (poolProject raw) ∈ FOCUS_PROTOCOLS then [mkEntry raw] else [])
        layer2 := acc.layer2 ++
          (if (mkEntry raw).chain ∈ LAYER2_CHAINS then [mkEntry raw] else []) } ∧
    (stepPool acc raw).long_term.length + (stepPool acc raw).short_term.length +
        (stepPool acc raw).focus.length =
      acc.long_term.length + acc.short_term.length + acc.focus.length + 1 := by
  have hmain : stepPool acc raw =
      { long_term := acc.long_term ++
          (if (mkEntry raw).risk = "Low" ∧ pyLower (poolProject raw) ∉ FOCUS_PROTOCOLS
           then [mkEntry raw] else [])
        short_term := acc.short_term ++
          (if (mkEntry raw).risk ≠ "Low" ∧ pyLower (poolProject raw) ∉ FOCUS_PROTOCOLS
           then [mkEntry raw] else [])
        focus := acc.focus ++
          (if pyLower (poolProject raw) ∈ FOCUS_PROTOCOLS then [mkEntry raw] else [])
        layer2 := acc.layer2 ++
          (if (mkEntry raw).chain ∈ LAYER2_CHAINS then [mkEntry raw] else []) } := by
    rw [stepPool, if_pos h]
    by_cases hf : pyLower (poolProject raw) ∈ FOCUS_PROTOCOLS
    · by_cases h2 : (mkEntry raw).chain ∈ LAYER2_CHAINS <;> simp [hf, h2]
    · by_cases hl : (mkEntry raw).risk = "Low" <;>
        by_cases h2 : (mkEntry raw).chain ∈ LAYER2_CHAINS <;> simp [hf, hl, h2]
  refine ⟨hmain, ?_⟩
  rw [hmain]
  by_cases hf : pyLower (poolProject raw) ∈ FOCUS_PROTOCOLS
  · simp [hf]
    omega
  · by_cases hl : (mkEntry raw).risk = "Low" <;> simp [hf, hl] <;> omega

theorem c3_witness :
    retainedPool (JVal.obj [("apy", JVal.num 10), ("tvlUsd", JVal.num 1000000),
      ("project", JVal.str "uniswap"), ("chain", JVal.str "base")]) = true ∧
    (stepPool emptyBuckets (JVal.obj [("apy", JVal.num 10), ("tvlUsd", JVal.num 1000000),
        ("project", JVal.str "uniswap"), ("chain", JVal.str "base")]) =
      { long_term := emptyBuckets.long_term ++
          (if (mkEntry (JVal.obj [("apy", JVal.num 10), ("tvlUsd", JVal.num 1000000),
                ("project", JVal.str "uniswap"), ("chain", JVal.str "base")])).risk = "Low" ∧
              pyLower (poolProject (JVal.obj [("apy", JVal.num 10), ("tvlUsd", JVal.num 1000000),
                ("project", JVal.str "uniswap"), ("chain", JVal.str "base")])) ∉ FOCUS_PROTOCOLS
           then [mkEntry (JVal.obj [("apy", JVal.num 10), ("tvlUsd", JVal.num 1000000),
                ("project", JVal.str "uniswap"), ("chain", JVal.str "base")])] else [])
        short_term := emptyBuckets.short_term ++
          (if (mkEntry (JVal.obj [("apy", JVal.num 10), ("tvlUsd", JVal.num 1000000),
                ("project", JVal.str "uniswap"), ("chain", JVal.str "base")])).risk ≠ "Low" ∧
              pyLower (poolProject (JVal.obj [("apy", JVal.num 10), ("tvlUsd", JVal.num 1000000),
                ("project", JVal.str "uniswap"), ("chain", JVal.str "base")])) ∉ FOCUS_PROTOCOLS
           then [mkEntry (JVal.obj [("apy", JVal.num 10), ("tvlUsd", JVal.num 1000000),
                ("project", JVal.str "uniswap"), ("chain", JVal.str "base")])] else [])
        focus := emptyBuckets.focus ++
          (if pyLower (poolProject (JVal.obj [("apy", JVal.num 10), ("tvlUsd", JVal.num 1000000),
                ("project", JVal.str "uniswap"), ("chain", JVal.str "base")])) ∈ FOCUS_PROTOCOLS
           then [mkEntry (JVal.obj [("apy", JVal.num 10), ("tvlUsd", JVal.num 1000000),
                ("project", JVal.str "uniswap"), ("chain", JVal.str "base")])] else [])
        layer2 := emptyBuckets.layer2 ++
          (if (mkEntry (JVal.obj [("apy", JVal.num 10), ("tvlUsd", JVal.num 1000000),
                ("project", JVal.str "uniswap"), ("chain", JVal.str "base")])).chain ∈ LAYER2_CHAINS
           then [mkEntry (JVal.obj [("apy", JVal.num 10), ("tvlUsd", JVal.num 1000000),
                ("project", JVal.str "uniswap"), ("chain", JVal.str "base")])] else []) } ∧
      (stepPool emptyBuckets (JVal.obj [("apy", JVal.num 10), ("tvlUsd", JVal.num 1000000),
          ("project", JVal.str "uniswap"), ("chain", JVal.str "base")])).long_term.length +
        (stepPool emptyBuckets (JVal.obj [("apy", JVal.num 10), ("tvlUsd", JVal.num 1000000),
          ("project", JVal.str "uniswap"), ("chain", JVal.str "base")])).short_term.length +
        (stepPool emptyBuckets (JVal.obj [("apy", JVal.num 10), ("tvlUsd", JVal.num 1000000),
          ("project", JVal.str "uniswap"), ("chain", JVal.str "base")])).focus.length =
      emptyBuckets.long_term.length + emptyBuckets.short_term.length +
        emptyBuckets.focus.length + 1) :=
  ⟨by decide, c3_bucket_partition emptyBuckets _ (by decide)⟩

/-- C9: whenever the classifier returns a result, each of its four buckets
has at most 10 entries; `get_top_picks` always returns at most 5 entries;
and whenever the meme scanner returns a result it has at most 12 entries. -/
theorem c9_size_bounds (mode : String) (d : JVal) (b : Buckets)
    (h1 : classify_yield_opportunities mode d = Except.ok b)
    (l : List YieldEntry) (feeds : List JVal) (ms : List MemeEntry)
    (h2 : get_meme_coins feeds = Except.ok ms) :
    b.long_term.length ≤ 10 ∧ b.short_term.length ≤ 10 ∧ b.focus.length ≤ 10 ∧
    b.layer2.length ≤ 10 ∧ (get_top_picks l).length ≤ 5 ∧ ms.length ≤ 12 := by
  have hb : b.long_term.length ≤ 10 ∧ b.short_term.length ≤ 10 ∧ b.focus.length ≤ 10 ∧
      b.layer2.length ≤ 10 := by
    cases d with
    | obj fs =>
      rw [classify_yield_opportunities] at h1
      split at h1
      · injection h1 with h1
        subst h1
        simp [emptyBuckets]
      · injection h1 with h1
        subst h1
        refine ⟨?_, ?_, ?_, ?_⟩ <;> simp [List.length_take]
    | null => exact absurd h1 (by simp [classify_yield_opportunities])
    | bool x => exact absurd h1 (by simp [classify_yield_opportunities])
    | num x => exact absurd h1 (by simp [classify_yield_opportunities])
    | str x => exact absurd h1 (by simp [classify_yield_opportunities])
    | arr x => exact absurd h1 (by simp [classify_yield_opportunities])
  have hm : ms.length ≤ 12 := by
    rw [get_meme_coins] at h2
    cases hfold : List.foldlM (fun acc d => do
        let es ← termEntries d
        pure (acc ++ es)) [] feeds with
    | ok r =>
      rw [hfold] at h2
      rw [show ((Except.ok r : Except String (List MemeEntry)) >>= fun results =>
          Except.ok (results.take 12)) = Except.ok (r.take 12) from rfl] at h2
      injection h2 with h2
      subst h2
      simp [List.length_take]
    | error e =>
      rw [hfold] at h2
      rw [show ((Except.error e : Except String (List MemeEntry)) >>= fun results =>
          Except.ok (results.take 12)) = Except.error e from rfl] at h2
      exact absurd h2 (by simp)
  exact ⟨hb.1, hb.2.1, hb.2.2.1, hb.2.2.2, by simp [get_top_picks, List.length_take], hm⟩

theorem c9_witness :
    classify_yield_opportunities "ror" (JVal.obj []) = Except.ok emptyBuckets ∧
    get_meme_coins [] = Except.ok [] ∧
    (emptyBuckets.long_term.length ≤ 10 ∧ emptyBuckets.short_term.length ≤ 10 ∧
     emptyBuckets.focus.length ≤ 10 ∧ emptyBuckets.layer2.length ≤ 10 ∧
     (get_top_picks []).length ≤ 5 ∧ ([] : List MemeEntry).length ≤ 12) :=
  ⟨rfl, rfl, c9_size_bounds "ror" (JVal.obj []) emptyBuckets rfl [] [] [] rfl⟩

/-- C8: `get_top_picks` is the flattened input sorted descending by
rankingScore and truncated to the first 5, where the sort is stable (ties
keep original relative order) and permutes the input; and the caller in
`app.py` flattens the four buckets without deduplication, so an entry
present in both focus and layer2 occurs at least twice in the flattened
input. -/
theorem c8_top_picks (b : Buckets) (e : YieldEntry) (h1 : e ∈ b.focus) (h2 : e ∈ b.layer2)
    (l : List YieldEntry) (v : ℚ) :
    2 ≤ (allOpportunities b).count e ∧
    get_top_picks l = (pySortDesc (fun x => x.ror) l).take 5 ∧
    List.Perm (pySortDesc (fun x => x.ror) l) l ∧
    List.Sorted (fun a c => c.ror ≤ a.ror) (get_top_picks l) ∧
    (pySortDesc (fun x => x.ror) l).filter (fun x => x.ror = v) =
      l.filter (fun x => x.ror = v) := by
  refine ⟨?_, rfl, pySortDesc_perm _ l, ?_, filter_pySortDesc _ v l⟩
  · have hc1 : 1 ≤ b.focus.count e := List.one_le_count_iff.mpr h1
    have hc2 : 1 ≤ b.layer2.count e := List.one_le_count_iff.mpr h2
    simp only [allOpportunities, List.count_append]
    omega
  · have hs := pySortDesc_sorted (fun x : YieldEntry => x.ror) l
    exact List.Pairwise.sublist (List.take_sublist 5 _) (by simpa using hs)

theorem c8_witness :
    (⟨"p", "c", "1.00%", "s", "$1", "Low", "i", 1, "t"⟩ : YieldEntry) ∈
      (Buckets.mk [] [] [⟨"p", "c", "1.00%", "s", "$1", "Low", "i", 1, "t"⟩]
        [⟨"p", "c", "1.00%", "s", "$1", "Low", "i", 1, "t"⟩]).focus ∧
    (⟨"p", "c", "1.00%", "s", "$1", "Low", "i", 1, "t"⟩ : YieldEntry) ∈
      (Buckets.mk [] [] [⟨"p", "c", "1.00%", "s", "$1", "Low", "i", 1, "t"⟩]
        [⟨"p", "c", "1.00%", "s", "$1", "Low", "i", 1, "t"⟩]).layer2 ∧
    (2 ≤ (allOpportunities (Buckets.mk [] [] [⟨"p", "c", "1.00%", "s", "$1", "Low", "i", 1, "t"⟩]
        [⟨"p", "c", "1.00%", "s", "$1", "Low", "i", 1, "t"⟩])).count
        (⟨"p", "c", "1.00%", "s", "$1", "Low", "i", 1, "t"⟩ : YieldEntry) ∧
     get_top_picks [] = (pySortDesc (fun x => x.ror) []).take 5 ∧
     List.Perm (pySortDesc (fun x => x.ror) ([] : List YieldEntry)) [] ∧
     List.Sorted (fun a c => c.ror ≤ a.ror) (get_top_picks []) ∧
     (pySortDesc (fun x => x.ror) ([] : List YieldEntry)).filter (fun x => x.ror = 0) =
       ([] : List YieldEntry).filter (fun x => x.ror = 0)) := by
  refine ⟨by simp, by simp, ?_⟩
  exact c8_top_picks _ _ (by simp) (by simp) [] 0

/-- C10: the display strings stored in a constructed entry are lossy
round-trips — `apy_value` parses the stored `"%.2f%%"` string back to the
apy rounded to two decimals and `tvl_value` parses the stored `"$%,.0f"`
string back to the tvl rounded to the nearest dollar — and in the
`"apy"`/`"apr"` and `"tvl"` sort modes `sort_key` compares exactly these
rounded round-tripped values; the final two conjuncts exhibit rounding
being strictly lossy (5.005 and 1000000.5 do not survive). -/
theorem c10_display_rounding (raw : JVal) (h : retainedPool raw = true) :
    (mkEntry raw).apy_value = round2 (poolApyD raw) ∧
    (mkEntry raw).tvl_value = round0 (poolTvlD raw) ∧
    sort_key "apy" (mkEntry raw) = round2 (poolApyD raw) ∧
    sort_key "apr" (mkEntry raw) = round2 (poolApyD raw) ∧
    sort_key "tvl" (mkEntry raw) = round0 (poolTvlD raw) ∧
    round2 (1001 / 200) ≠ (1001 / 200 : ℚ) ∧
    round0 (2000001 / 2) ≠ (2000001 / 2 : ℚ) := by
  refine ⟨apy_value_mkEntry raw, tvl_value_mkEntry raw, ?_, ?_, ?_, ?_, ?_⟩
  · rw [show sort_key "apy" (mkEntry raw) = (mkEntry raw).apy_value from rfl]
    exact apy_value_mkEntry raw
  · rw [show sort_key "apr" (mkEntry raw) = (mkEntry raw).apy_value from rfl]
    exact apy_value_mkEntry raw
  · rw [show sort_key "tvl" (mkEntry raw) = (mkEntry raw).tvl_value from rfl]
    exact tvl_value_mkEntry raw
  · set_option maxRecDepth 4000 in with_unfolding_all decide
  · set_option maxRecDepth 4000 in with_unfolding_all decide

theorem c10_witness :
    retainedPool (JVal.obj [("apy", JVal.num (1001 / 200)), ("tvlUsd", JVal.num (2000001 / 2))])
      = true ∧
    ((mkEntry (JVal.obj [("apy", JVal.num (1001 / 200)), ("tvlUsd", JVal.num (2000001 / 2))])).apy_value =
       round2 (poolApyD (JVal.obj [("apy", JVal.num (1001 / 200)), ("tvlUsd", JVal.num (2000001 / 2))])) ∧
     (mkEntry (JVal.obj [("apy", JVal.num (1001 / 200)), ("tvlUsd", JVal.num (2000001 / 2))])).tvl_value =
       round0 (poolTvlD (JVal.obj [("apy", JVal.num (1001 / 200)), ("tvlUsd", JVal.num (2000001 / 2))])) ∧
     sort_key "apy" (mkEntry (JVal.obj [("apy", JVal.num (1001 / 200)), ("tvlUsd", JVal.num (2000001 / 2))])) =
       round2 (poolApyD (JVal.obj [("apy", JVal.num (1001 / 200)), ("tvlUsd", JVal.num (2000001 / 2))])) ∧
     sort_key "apr" (mkEntry (JVal.obj [("apy", JVal.num (1001 / 200)), ("tvlUsd", JVal.num (2000001 / 2))])) =
       round2 (poolApyD (JVal.obj [("apy", JVal.num (1001 / 200)), ("tvlUsd", JVal.num (2000001 / 2))])) ∧
     sort_key "tvl" (mkEntry (JVal.obj [("apy", JVal.num (1001 / 200)), ("tvlUsd", JVal.num (2000001 / 2))])) =
       round0 (poolTvlD (JVal.obj [("apy", JVal.num (1001 / 200)), ("tvlUsd", JVal.num (2000001 / 2))])) ∧
     round2 (1001 / 200) ≠ (1001 / 200 : ℚ) ∧
     round0 (2000001 / 2) ≠ (2000001 / 2 : ℚ)) :=
  ⟨by with_unfolding_all decide,
   c10_display_rounding (JVal.obj [("apy", JVal.num (1001 / 200)), ("tvlUsd", JVal.num (2000001 / 2))])
     (by with_unfolding_all decide)⟩

theorem exceptBind_ok {ε α β : Type} (a : α) (f : α → Except ε β) :
    (Except.ok a >>= f) = f a := rfl

theorem exceptBind_error {ε α β : Type} (e : ε) (f : α → Except ε β) :
    ((Except.error e : Except ε α) >>= f) = Except.error e := rfl

theorem exceptBind_pure {ε α β : Type} (a : α) (f : α → Except ε β) :
    ((pure a : Except ε α) >>= f) = f a := rfl

/-- The parsed liquidity of a pair record (`0` stands in when the parse
would raise; only used under a no-raise hypothesis). -/
def pairLiqD (fs : List (String × JVal)) : ℚ :=
  match parseUsdField fs "liquidity" "usd" with
  | .ok q => q
  | .error _ => 0

/-- The parsed 24h volume of a pair record. -/
def pairVolD (fs : List (String × JVal)) : ℚ :=
  match parseUsdField fs "volume" "h24" with
  | .ok q => q
  | .error _ => 0

/-- The parsed 24h price change of a pair record. -/
def pairChgD (fs : List (String × JVal)) : ℚ :=
  match parseUsdField fs "priceChange" "h24" with
  | .ok q => q
  | .error _ => 0

/-- C7: a pair record (a dict) whose processing does not raise is kept as a
candidate exactly when its chain id resolves (through `CHAIN_ID_MAP`, with
the stringified raw id as fallback) to a tracked meme chain, its liquidity
is at least `MIN_LIQUIDITY` and its 24h volume is at least a tenth of its
liquidity; moreover the unmapped chain id 999999 resolves to the literal
string "999999", and the two concrete scenario pairs (liquidity 200,000
with volume 15,000; chain id 999999) are both excluded. -/
theorem c7_pair_retention (ch : String) (acc : List Cand) (fs : List (String × JVal))
    (ch2 : String) (acc2 : List Cand)
    (h : pairStep (ch, acc) (JVal.obj fs) = Except.ok (ch2, acc2)) :
    (acc2 = acc ++ [⟨JVal.obj fs, pairLiqD fs, pairVolD fs, pairChgD fs⟩] ∨ acc2 = acc) ∧
    (acc2 ≠ acc ↔
      (resolvedChain ((jget fs "chainId").getD (JVal.num 0)) ∈ MEME_CHAINS ∧
       pairLiqD fs ≥ MIN_LIQUIDITY ∧ pairVolD fs ≥ (1 / 10) * pairLiqD fs)) ∧
    resolvedChain (JVal.num 999999) = "999999" ∧
    pairStep ("sol", []) (JVal.obj [("chainId", JVal.num 1),
        ("liquidity", JVal.obj [("usd", JVal.num 200000)]),
        ("volume", JVal.obj [("h24", JVal.num 15000)])]) = Except.ok ("eth", []) ∧
    pairStep ("sol", []) (JVal.obj [("chainId", JVal.num 999999)]) =
      Except.ok ("999999", []) := by
  have hcore : (acc2 = acc ++ [⟨JVal.obj fs, pairLiqD fs, pairVolD fs, pairChgD fs⟩] ∨
      acc2 = acc) ∧
      (acc2 ≠ acc ↔
        (resolvedChain ((jget fs "chainId").getD (JVal.num 0)) ∈ MEME_CHAINS ∧
         pairLiqD fs ≥ MIN_LIQUIDITY ∧ pairVolD fs ≥ (1 / 10) * pairLiqD fs)) := by
    simp only [pairStep] at h
    by_cases hh : hashable ((jget fs "chainId").getD (JVal.num 0))
    · rw [if_pos hh] at h
      by_cases hc : resolvedChain ((jget fs "chainId").getD (JVal.num 0)) ∈ MEME_CHAINS
      · rw [if_pos hc] at h
        cases el : parseUsdField fs "liquidity" "usd" with
        | error msg => rw [el, exceptBind_error] at h; exact absurd h (by simp)
        | ok liq =>
          rw [el, exceptBind_ok] at h
          cases ev : parseUsdField fs "volume" "h24" with
          | error msg => rw [ev, exceptBind_error] at h; exact absurd h (by simp)
          | ok vol =>
            rw [ev, exceptBind_ok] at h
            cases eg : parseUsdField fs "priceChange" "h24" with
            | error msg => rw [eg, exceptBind_error] at h; exact absurd h (by simp)
            | ok chg =>
              rw [eg, exceptBind_ok] at h
              have hl : pairLiqD fs = liq := by simp [pairLiqD, el]
              have hv : pairVolD fs = vol := by simp [pairVolD, ev]
              have hg : pairChgD fs = chg := by simp [pairChgD, eg]
              by_cases hkeep : liq ≥ MIN_LIQUIDITY ∧ vol ≥ (1 / 10) * liq
              · rw [if_pos hkeep] at h
                injection h with h
                have h2 := h.symm
                injection h2 with e1 e2
                subst e1
                subst e2
                constructor
                · exact Or.inl (by rw [hl, hv, hg])
                · constructor
                  · intro _
                    exact ⟨hc, by rw [hl]; exact hkeep.1, by rw [hl, hv]; exact hkeep.2⟩
                  · intro _
                    simp
              · rw [if_neg hkeep] at h
                injection h with h
                have h2 := h.symm
                injection h2 with e1 e2
                subst e1
                subst e2
                refine ⟨Or.inr rfl, ?_⟩
                simp only [ne_eq, not_true_eq_false, false_iff]
                rw [hl, hv]
                intro hcontra
                exact hkeep ⟨hcontra.2.1, hcontra.2.2⟩
      · rw [if_neg hc] at h
        injection h with h
        have h2 := h.symm
        injection h2 with e1 e2
        subst e1
        subst e2
        refine ⟨Or.inr rfl, ?_⟩
        simp only [ne_eq, not_true_eq_false, false_iff]
        intro hcontra
        exact hc hcontra.1
    · rw [if_neg hh] at h
      exact absurd h (by simp)
  refine ⟨hcore.1, hcore.2, rfl, ?_, ?_⟩
  · with_unfolding_all rfl
  · with_unfolding_all rfl

theorem c7_witness :
    pairStep ("x", []) (JVal.obj [("chainId", JVal.num 1), ("liquidity", JVal.obj [("usd", JVal.num 200000)]), ("volume", JVal.obj [("h24", JVal.num 25000)])]) =
      Except.ok ("eth", [⟨JVal.obj [("chainId", JVal.num 1), ("liquidity", JVal.obj [("usd", JVal.num 200000)]), ("volume", JVal.obj [("h24", JVal.num 25000)])], 200000, 25000, 0⟩]) ∧
    ((([⟨JVal.obj [("chainId", JVal.num 1), ("liquidity", JVal.obj [("usd", JVal.num 200000)]), ("volume", JVal.obj [("h24", JVal.num 25000)])], 200000, 25000, 0⟩] : List Cand) =
        [] ++ [⟨JVal.obj [("chainId", JVal.num 1), ("liquidity", JVal.obj [("usd", JVal.num 200000)]), ("volume", JVal.obj [("h24", JVal.num 25000)])], pairLiqD [("chainId", JVal.num 1), ("liquidity", JVal.obj [("usd", JVal.num 200000)]), ("volume", JVal.obj [("h24", JVal.num 25000)])], pairVolD [("chainId", JVal.num 1), ("liquidity", JVal.obj [("usd", JVal.num 200000)]), ("volume", JVal.obj [("h24", JVal.num 25000)])], pairChgD [("chainId", JVal.num 1), ("liquidity", JVal.obj [("usd", JVal.num 200000)]), ("volume", JVal.obj [("h24", JVal.num 25000)])]⟩] ∨
      ([⟨JVal.obj [("chainId", JVal.num 1), ("liquidity", JVal.obj [("usd", JVal.num 200000)]), ("volume", JVal.obj [("h24", JVal.num 25000)])], 200000, 25000, 0⟩] : List Cand) = []) ∧
    (([⟨JVal.obj [("chainId", JVal.num 1), ("liquidity", JVal.obj [("usd", JVal.num 200000)]), ("volume", JVal.obj [("h24", JVal.num 25000)])], 200000, 25000, 0⟩] : List Cand) ≠ [] ↔
      (resolvedChain ((jget [("chainId", JVal.num 1), ("liquidity", JVal.obj [("usd", JVal.num 200000)]), ("volume", JVal.obj [("h24", JVal.num 25000)])] "chainId").getD (JVal.num 0)) ∈ MEME_CHAINS ∧
       pairLiqD [("chainId", JVal.num 1), ("liquidity", JVal.obj [("usd", JVal.num 200000)]), ("volume", JVal.obj [("h24", JVal.num 25000)])] ≥ MIN_LIQUIDITY ∧
       pairVolD [("chainId", JVal.num 1), ("liquidity", JVal.obj [("usd", JVal.num 200000)]), ("volume", JVal.obj [("h24", JVal.num 25000)])] ≥ (1 / 10) * pairLiqD [("chainId", JVal.num 1), ("liquidity", JVal.obj [("usd", JVal.num 200000)]), ("volume", JVal.obj [("h24", JVal.num 25000)])])) ∧
    resolvedChain (JVal.num 999999) = "999999" ∧
    pairStep ("sol", []) (JVal.obj [("chainId", JVal.num 1),
        ("liquidity", JVal.obj [("usd", JVal.num 200000)]),
        ("volume", JVal.obj [("h24", JVal.num 15000)])]) = Except.ok ("eth", []) ∧
    pairStep ("sol", []) (JVal.obj [("chainId", JVal.num 999999)]) =
      Except.ok ("999999", [])) :=
  ⟨by with_unfolding_all rfl,
   c7_pair_retention "x" [] [("chainId", JVal.num 1), ("liquidity", JVal.obj [("usd", JVal.num 200000)]), ("volume", JVal.obj [("h24", JVal.num 25000)])] "eth" [⟨JVal.obj [("chainId", JVal.num 1), ("liquidity", JVal.obj [("usd", JVal.num 200000)]), ("volume", JVal.obj [("h24", JVal.num 25000)])], 200000, 25000, 0⟩] (by with_unfolding_all rfl)⟩

theorem meme_foldlM_ok (feeds : List JVal) (h : ∀ d ∈ feeds, (termEntries d).isOk = true) :
    ∀ acc : List MemeEntry,
      List.foldlM (fun acc d => do
        let es ← termEntries d
        pure (acc ++ es)) acc feeds =
      Except.ok (acc ++ (feeds.map fun d => (termEntries d).toOption.getD []).flatten) := by
  induction feeds with
  | nil =>
    intro acc
    simp [List.foldlM]
    rfl
  | cons d feeds ih =>
    intro acc
    have hd := h d (by simp)
    cases htd : termEntries d with
    | error e => rw [htd] at hd; simp [Except.isOk, Except.toBool] at hd
    | ok es =>
      rw [List.foldlM_cons, htd, exceptBind_ok, exceptBind_pure,
        ih (fun d hd2 => h d (by simp [hd2])) (acc ++ es)]
      simp [htd, Except.toOption]

/-- C4: when every term succeeds, the meme-scanner output is exactly the
per-term entry lists (each already capped at the top 3 by 24h volume inside
`termEntries`) concatenated in fixed term order and then positionally
truncated to the first 12 — never re-sorted globally; and every per-term
contribution indeed has at most 3 entries. -/
theorem c4_meme_aggregation (feeds : List JVal)
    (h : ∀ d ∈ feeds, (termEntries d).isOk = true) :
    get_meme_coins feeds =
      Except.ok (((feeds.map fun d => (termEntries d).toOption.getD []).flatten).take 12) ∧
    (∀ d es, termEntries d = Except.ok es → es.length ≤ 3) := by
  constructor
  · rw [get_meme_coins, meme_foldlM_ok feeds h [], exceptBind_ok]
    simp
  · intro d es htd
    cases d with
    | obj fs =>
      rw [termEntries] at htd
      split at htd
      · injection htd with htd
        subst htd
        simp
      · have htd2 : (List.foldlM pairStep ("", []) (termPairs fs) >>= fun st =>
            Except.ok (((pySortDesc (fun c => c.vol) st.2).take 3).map
              (buildMemeEntry st.1))) = Except.ok es := htd
        cases hfold : List.foldlM pairStep ("", []) (termPairs fs) with
        | error e => rw [hfold, exceptBind_error] at htd2; exact absurd htd2 (by simp)
        | ok st =>
          rw [hfold, exceptBind_ok] at htd2
          injection htd2 with htd2
          subst htd2
          simp [List.length_take, List.length_map]
    | null => exact absurd htd (by simp [termEntries])
    | bool x => exact absurd htd (by simp [termEntries])
    | num x => exact absurd htd (by simp [termEntries])
    | str x => exact absurd htd (by simp [termEntries])
    | arr x => exact absurd htd (by simp [termEntries])

set_option maxRecDepth 8000 in
theorem c4_witness :
    (∀ d ∈ [JVal.obj [("pairs", JVal.arr [JVal.obj [("chainId", JVal.num 1), ("liquidity", JVal.obj [("usd", JVal.num 200000)]), ("volume", JVal.obj [("h24", JVal.num 25000)])]])],
        JVal.obj [("pairs", JVal.arr [JVal.obj [("chainId", JVal.num 56), ("liquidity", JVal.obj [("usd", JVal.num 500000)]), ("volume", JVal.obj [("h24", JVal.num 999999)])]])]], (termEntries d).isOk = true) ∧
    (get_meme_coins [JVal.obj [("pairs", JVal.arr [JVal.obj [("chainId", JVal.num 1), ("liquidity", JVal.obj [("usd", JVal.num 200000)]), ("volume", JVal.obj [("h24", JVal.num 25000)])]])],
        JVal.obj [("pairs", JVal.arr [JVal.obj [("chainId", JVal.num 56), ("liquidity", JVal.obj [("usd", JVal.num 500000)]), ("volume", JVal.obj [("h24", JVal.num 999999)])]])]] =
      Except.ok ((([JVal.obj [("pairs", JVal.arr [JVal.obj [("chainId", JVal.num 1), ("liquidity", JVal.obj [("usd", JVal.num 200000)]), ("volume", JVal.obj [("h24", JVal.num 25000)])]])],
          JVal.obj [("pairs", JVal.arr [JVal.obj [("chainId", JVal.num 56), ("liquidity", JVal.obj [("usd", JVal.num 500000)]), ("volume", JVal.obj [("h24", JVal.num 999999)])]])]].map fun d => (termEntries d).toOption.getD []).flatten).take 12) ∧
    (∀ d es, termEntries d = Except.ok es → es.length ≤ 3)) :=
  have hh : ∀ d ∈ [JVal.obj [("pairs", JVal.arr [JVal.obj [("chainId", JVal.num 1), ("liquidity", JVal.obj [("usd", JVal.num 200000)]), ("volume", JVal.obj [("h24", JVal.num 25000)])]])],
      JVal.obj [("pairs", JVal.arr [JVal.obj [("chainId", JVal.num 56), ("liquidity", JVal.obj [("usd", JVal.num 500000)]), ("volume", JVal.obj [("h24", JVal.num 999999)])]])]], (termEntries d).isOk = true := by with_unfolding_all decide
  ⟨hh, c4_meme_aggregation _ hh⟩
